import Mathlib

/-!
Shallow embedding of the bus-booking service in
`src/FINAL-PYTHON-FAST-API-PROJECT.py`.

The Python program keeps two in-memory collections inside a
`BusBookingSystem` object: a dict `_buses : Dict[int, Bus]` seeded with three
routes, and a list `_bookings : List[Booking]`.  Python integers are modelled
as `Int` (they are unbounded), strings as `String`.  The dict keyed by
`bus_id` is modelled as a `List Bus` looked up by the `bus_id` field: the
seeded dict has pairwise-distinct keys and routes are never added or removed,
so the association-list view is faithful.  A `Booking` in Python holds a live
object reference to its `Bus`; since the catalog is static and every booking
is created from a bus found in the catalog, the reference is modelled by the
immutable `bus_id` field.  Calls to `datetime.now()` are modelled by passing
the two timestamp strings the code derives from it (`strftime` at second
granularity for the booking id, `isoformat` for the booking time) as explicit
arguments.
-/

namespace BusApi

/-- Mirror of class `Bus` (source lines 50-101): encapsulated fields
`_bus_id`, `_route`, `_time`, `_fare`, `_total_seats`, `_available_seats`. -/
structure Bus where
  bus_id : Int
  route : String
  time : String
  fare : Int
  total_seats : Int
  available_seats : Int
deriving DecidableEq

/-- Mirror of `Bus.__init__` (lines 53-59): `available_seats` starts at
`total_seats` (the Python default `total_seats=30` is passed explicitly at
each seeding call site). -/
def Bus.make (bus_id : Int) (route time : String) (fare total_seats : Int) : Bus :=
  { bus_id := bus_id, route := route, time := time, fare := fare,
    total_seats := total_seats, available_seats := total_seats }

/-- Mirror of `Bus.reserve_seats` (lines 82-87): if `seats <= _available_seats`
then decrement and return `True`, else return `False` without mutating. -/
def Bus.reserve_seats (b : Bus) (seats : Int) : Bool × Bus :=
  if seats ≤ b.available_seats then
    (true, { b with available_seats := b.available_seats - seats })
  else
    (false, b)

/-- Mirror of `Bus.release_seats` (lines 89-91):
`_available_seats = min(_available_seats + seats, _total_seats)`. -/
def Bus.release_seats (b : Bus) (seats : Int) : Bus :=
  { b with available_seats := min (b.available_seats + seats) b.total_seats }

/-- Mirror of class `Booking` (lines 104-146).  `booking_id` and
`booking_time` are built from the `datetime.now()` strings passed in by the
caller; the Python object reference `_bus` is represented by `bus_id` (the
catalog is static, see module docstring). -/
structure Booking where
  booking_id : String
  name : String
  bus_id : Int
  seats : Int
  total_fare : Int
  booking_time : String
deriving DecidableEq

/-- Mirror of `Booking.__init__` (lines 107-113):
`_booking_id = f"BK{datetime.now().strftime('%Y%m%d%H%M%S')}"`,
`_total_fare = seats * bus.fare`, `_booking_time = datetime.now().isoformat()`.
`nowSecs` is the second-granularity `strftime` string, `nowIso` the
`isoformat` string. -/
def Booking.make (name : String) (bus : Bus) (seats : Int) (nowSecs nowIso : String) : Booking :=
  { booking_id := "BK" ++ nowSecs,
    name := name,
    bus_id := bus.bus_id,
    seats := seats,
    total_fare := seats * bus.fare,
    booking_time := nowIso }

/-- Mirror of the state of `BusBookingSystem` (lines 149-159): the route
catalog `_buses` and the booking ledger `_bookings`. -/
structure BusBookingSystem where
  buses : List Bus
  bookings : List Booking
deriving DecidableEq

/-- The error outcomes the program signals with `raise HTTPException` plus the
pydantic request-validation failure produced by the FastAPI boundary. -/
inductive ApiError where
  | busNotFound
  | notEnoughSeats
  | bookingNotFound
  | validationError
deriving DecidableEq

deriving instance DecidableEq for Except

/-- The first seeded route, `Bus(1, "North Nazimabad - Power House",
"09:00 AM", 500)` (line 155). -/
def seededBus1 : Bus := Bus.make 1 "North Nazimabad - Power House" "09:00 AM" 500 30

/-- The second seeded route, `Bus(2, "KDA - Gulshan", "12:00 PM", 700)`
(line 156). -/
def seededBus2 : Bus := Bus.make 2 "KDA - Gulshan" "12:00 PM" 700 30

/-- The third seeded route, `Bus(3, "Ayesha Manzil - Bahria", "05:00 PM",
600)` (line 157). -/
def seededBus3 : Bus := Bus.make 3 "Ayesha Manzil - Bahria" "05:00 PM" 600 30

/-- Mirror of `BusBookingSystem.__init__` (lines 152-159): the seeded catalog
and an empty ledger. -/
def initSystem : BusBookingSystem :=
  { buses := [seededBus1, seededBus2, seededBus3], bookings := [] }

/-- Mirror of `BusBookingSystem.get_bus` (lines 165-167): dict lookup
`self._buses.get(bus_id)`, i.e. the unique catalog entry with that key. -/
def BusBookingSystem.get_bus (s : BusBookingSystem) (bus_id : Int) : Option Bus :=
  s.buses.find? (fun b => b.bus_id == bus_id)

/-- Mirror of `BusBookingSystem.get_all_buses` (lines 161-163), as the list of
routes it serializes. -/
def BusBookingSystem.get_all_buses (s : BusBookingSystem) : List Bus :=
  s.buses

/-- Mirror of `BusBookingSystem.get_all_bookings` (lines 201-203), as the list
of bookings it serializes. -/
def BusBookingSystem.get_all_bookings (s : BusBookingSystem) : List Booking :=
  s.bookings

/-- In-place mutation of the catalog bus object with key `bus_id`: the
association-list analogue of the Python aliased-object update. -/
def setBus (buses : List Bus) (bus_id : Int) (newBus : Bus) : List Bus :=
  buses.map (fun b => if b.bus_id == bus_id then newBus else b)

/-- Mirror of `BusBookingSystem.create_booking` (lines 169-188).  The Python
method mutates `self` and either returns a response or raises; here the
(possibly updated) state is always returned alongside the outcome.  On
`Bus not found` it raises 404 (`busNotFound`); on a failed `reserve_seats` it
raises 400 `Not enough seats available` (`notEnoughSeats`); otherwise it
appends `Booking(booking_data.name, bus, booking_data.seats)` to the ledger. -/
def BusBookingSystem.create_booking (s : BusBookingSystem) (name : String)
    (bus_id seats : Int) (nowSecs nowIso : String) :
    Except ApiError Booking × BusBookingSystem :=
  match s.get_bus bus_id with
  | none => (Except.error ApiError.busNotFound, s)
  | some bus =>
    let r := bus.reserve_seats seats
    if r.1 then
      let booking := Booking.make name r.2 seats nowSecs nowIso
      (Except.ok booking,
        { s with buses := setBus s.buses bus_id r.2,
                 bookings := s.bookings ++ [booking] })
    else
      (Except.error ApiError.notEnoughSeats, s)

/-- Python's `str.lower()`: lowercase the string character by character. -/
def pyLower (s : String) : String :=
  ⟨s.data.map Char.toLower⟩

/-- The case-insensitive name test of `cancel_booking` (line 193):
`booking.name.lower() == name.lower()`. -/
def bookingMatches (b : Booking) (name : String) : Bool :=
  pyLower b.name == pyLower name

/-- The scan of `cancel_booking` (lines 192-198): find the first
case-insensitively matching booking and delete it, returning the match and
the remaining ledger; `none` when no booking matches. -/
def removeFirstMatch (name : String) : List Booking → Option (Booking × List Booking)
  | [] => none
  | b :: rest =>
    if bookingMatches b name then some (b, rest)
    else
      match removeFirstMatch name rest with
      | none => none
      | some (f, r) => some (f, b :: r)

/-- Mirror of `BusBookingSystem.cancel_booking` (lines 190-199): on the first
case-insensitive match, release the booking's seats back to its bus
(`booking.bus.release_seats(booking.seats)`), delete the ledger entry and
return `True`; otherwise return `False` with nothing changed. -/
def BusBookingSystem.cancel_booking (s : BusBookingSystem) (name : String) :
    Bool × BusBookingSystem :=
  match removeFirstMatch name s.bookings with
  | none => (false, s)
  | some (b, rest) =>
    (true,
      { s with
        buses := s.buses.map (fun bus =>
          if bus.bus_id == b.bus_id then bus.release_seats b.seats else bus),
        bookings := rest })

/-- Pydantic validation of `BookingRequest` (lines 15-18): `name` has
`min_length=1, max_length=100`, `bus_id` has `gt=0`, `seats` has
`gt=0, le=30`.  FastAPI enforces this before the endpoint body runs. -/
def BookingRequest.valid (name : String) (bus_id seats : Int) : Prop :=
  1 ≤ name.length ∧ name.length ≤ 100 ∧ 0 < bus_id ∧ 0 < seats ∧ seats ≤ 30

instance (name : String) (bus_id seats : Int) :
    Decidable (BookingRequest.valid name bus_id seats) :=
  inferInstanceAs (Decidable
    (1 ≤ name.length ∧ name.length ≤ 100 ∧ 0 < bus_id ∧ 0 < seats ∧ seats ≤ 30))

/-- Pydantic validation of `CancelRequest` (lines 30-31): `name` has
`min_length=1`. -/
def CancelRequest.valid (name : String) : Prop :=
  1 ≤ name.length

instance (name : String) : Decidable (CancelRequest.valid name) :=
  inferInstanceAs (Decidable (1 ≤ name.length))

/-- Mirror of the `POST /bookings` endpoint `book_ticket` (lines 263-268):
FastAPI first parses the body into a `BookingRequest` (rejecting invalid
payloads with a validation error before the handler runs), then the handler
calls `booking_system.create_booking`. -/
def book_ticket (s : BusBookingSystem) (name : String) (bus_id seats : Int)
    (nowSecs nowIso : String) : Except ApiError Booking × BusBookingSystem :=
  if BookingRequest.valid name bus_id seats then
    s.create_booking name bus_id seats nowSecs nowIso
  else
    (Except.error ApiError.validationError, s)

/-- Mirror of the `DELETE /bookings` endpoint (lines 270-281): after
`CancelRequest` validation, the handler calls
`booking_system.cancel_booking(name)` and maps `False` to a 404
`Booking not found`. -/
def cancel_booking_api (s : BusBookingSystem) (name : String) :
    Except ApiError Unit × BusBookingSystem :=
  if CancelRequest.valid name then
    ((if (s.cancel_booking name).1 then Except.ok ()
      else Except.error ApiError.bookingNotFound),
     (s.cancel_booking name).2)
  else
    (Except.error ApiError.validationError, s)

/-- States reachable from the seeded catalog (`booking_system =
BusBookingSystem()`, line 239) by the public endpoint operations.  The two
read-only endpoints (`GET /buses`, `GET /bookings`) do not change state, so
only booking and cancellation steps appear. -/
inductive Reachable : BusBookingSystem → Prop where
  | init : Reachable initSystem
  | book (s : BusBookingSystem) (name : String) (bus_id seats : Int)
      (nowSecs nowIso : String) : Reachable s →
      Reachable (book_ticket s name bus_id seats nowSecs nowIso).2
  | cancel (s : BusBookingSystem) (name : String) : Reachable s →
      Reachable (cancel_booking_api s name).2

/-- Total seats of all ledger bookings that reference the route `bus_id`. -/
def sumSeatsFor (bookings : List Booking) (bus_id : Int) : Int :=
  ((bookings.filter (fun bk => bk.bus_id == bus_id)).map Booking.seats).sum

/-- The inductive invariant of the combined catalog/ledger state: catalog keys
are pairwise distinct (they come from a Python dict), every route's available
seats equal its total seats minus the seats of the ledger bookings against
it, available seats are non-negative, and every ledger booking reserves a
positive number of seats. -/
def SysInv (s : BusBookingSystem) : Prop :=
  (s.buses.map Bus.bus_id).Nodup ∧
  (∀ b ∈ s.buses, b.available_seats = b.total_seats - sumSeatsFor s.bookings b.bus_id) ∧
  (∀ b ∈ s.buses, 0 ≤ b.available_seats) ∧
  (∀ bk ∈ s.bookings, 0 < bk.seats)

instance (s : BusBookingSystem) : Decidable (SysInv s) :=
  inferInstanceAs (Decidable (_ ∧ _ ∧ _ ∧ _))

/-! ### Concrete states used below -/

/-- State after booking 5 seats for Alice on route 1 through the public
endpoint. -/
def exBooked : BusBookingSystem :=
  (book_ticket initSystem "Alice" 1 5 "20250101090000" "2025-01-01T09:00:00").2

/-- Route 1 as it stands in `exBooked`: 25 of 30 seats left. -/
def exBookedBus1 : Bus :=
  { seededBus1 with available_seats := 25 }

/-- State after `create_booking` of 5 seats for `"Alice"` on route 1. -/
def exAlice1 : BusBookingSystem :=
  (initSystem.create_booking "Alice" 1 5 "20250101090000" "2025-01-01T09:00:00").2

/-- The booking record created for Alice in `exAlice1`. -/
def bkAlice : Booking :=
  Booking.make "Alice" { seededBus1 with available_seats := 25 } 5
    "20250101090000" "2025-01-01T09:00:00"

/-- State after a second, differently-cased booking for `"alice"` on route 2
on top of `exAlice1`. -/
def exAlice2 : BusBookingSystem :=
  (exAlice1.create_booking "alice" 2 3 "20250101091500" "2025-01-01T09:15:00").2

/-- First Carol booking: 2 seats on route 1. -/
def bkCarol1 : Booking :=
  Booking.make "Carol" seededBus1 2 "20250101100000" "2025-01-01T10:00:00"

/-- Second Carol booking, lower-case name: 3 seats on route 2. -/
def bkCarol2 : Booking :=
  Booking.make "carol" seededBus2 3 "20250101100100" "2025-01-01T10:01:00"

/-- A ledger holding two bookings under the same case-folded name. -/
def exCarolState : BusBookingSystem :=
  { initSystem with bookings := [bkCarol1, bkCarol2] }

/-- State after booking for Alice at clock second `20250101120000` through
the public endpoint. -/
def exSame1 : BusBookingSystem :=
  (book_ticket initSystem "Alice" 1 5 "20250101120000" "2025-01-01T12:00:00").2

/-- State after a second booking, for Bob, within the same clock second. -/
def exSame2 : BusBookingSystem :=
  (book_ticket exSame1 "Bob" 2 3 "20250101120000" "2025-01-01T12:00:00").2

/-- Booking record created for Dave at second `20250102080000`. -/
def bkDave : Booking :=
  Booking.make "Dave" { seededBus1 with available_seats := 26 } 4
    "20250102080000" "2025-01-02T08:00:00"

/-- State after Dave's booking. -/
def sDave : BusBookingSystem :=
  (initSystem.create_booking "Dave" 1 4 "20250102080000" "2025-01-02T08:00:00").2

/-- Booking record created for Eve one second later. -/
def bkEve : Booking :=
  Booking.make "Eve" { seededBus2 with available_seats := 28 } 2
    "20250102080001" "2025-01-02T08:00:01"

/-- State after Eve's booking. -/
def sEve : BusBookingSystem :=
  (initSystem.create_booking "Eve" 2 2 "20250102080001" "2025-01-02T08:00:01").2

/-! ### Basic lemmas about the seat-accounting sum -/

theorem sumSeatsFor_nil (i : Int) : sumSeatsFor [] i = 0 := rfl

theorem sumSeatsFor_cons (bk : Booking) (l : List Booking) (i : Int) :
    sumSeatsFor (bk :: l) i =
      (if bk.bus_id == i then bk.seats else 0) + sumSeatsFor l i := by
  unfold sumSeatsFor
  rw [List.filter_cons]
  by_cases h : (bk.bus_id == i) = true
  · simp [h]
  · simp [h]

theorem sumSeatsFor_append (l1 l2 : List Booking) (i : Int) :
    sumSeatsFor (l1 ++ l2) i = sumSeatsFor l1 i + sumSeatsFor l2 i := by
  unfold sumSeatsFor
  rw [List.filter_append, List.map_append, List.sum_append]

theorem sumSeatsFor_nonneg (l : List Booking) (i : Int)
    (h : ∀ bk ∈ l, 0 < bk.seats) : 0 ≤ sumSeatsFor l i := by
  unfold sumSeatsFor
  apply List.sum_nonneg
  intro x hx
  obtain ⟨bk, hbk, rfl⟩ := List.mem_map.mp hx
  exact le_of_lt (h bk (List.mem_of_mem_filter hbk))

theorem seats_le_sumSeatsFor (l : List Booking) (bk : Booking) (i : Int)
    (hmem : bk ∈ l) (hid : bk.bus_id = i) (hpos : ∀ x ∈ l, 0 < x.seats) :
    bk.seats ≤ sumSeatsFor l i := by
  unfold sumSeatsFor
  apply List.single_le_sum
  · intro x hx
    obtain ⟨y, hy, rfl⟩ := List.mem_map.mp hx
    exact le_of_lt (hpos y (List.mem_of_mem_filter hy))
  · exact List.mem_map.mpr ⟨bk, List.mem_filter.mpr ⟨hmem, by simp [hid]⟩, rfl⟩

/-! ### Lemmas about the cancellation scan -/

theorem removeFirstMatch_of_no_match (name : String) (l : List Booking)
    (h : ∀ x ∈ l, bookingMatches x name = false) :
    removeFirstMatch name l = none := by
  induction l with
  | nil => rfl
  | cons x xs ih =>
    have hx := h x (List.mem_cons_self x xs)
    have hxs := ih (fun y hy => h y (List.mem_cons_of_mem x hy))
    simp [removeFirstMatch, hx, hxs]

theorem removeFirstMatch_append_match (name : String) (pre : List Booking)
    (b : Booking) (post : List Booking)
    (hpre : ∀ x ∈ pre, bookingMatches x name = false)
    (hb : bookingMatches b name = true) :
    removeFirstMatch name (pre ++ b :: post) = some (b, pre ++ post) := by
  induction pre with
  | nil => simp [removeFirstMatch, hb]
  | cons x xs ih =>
    have hx := hpre x (List.mem_cons_self x xs)
    have hxs := ih (fun y hy => hpre y (List.mem_cons_of_mem x hy))
    simp [removeFirstMatch, hx, hxs]

theorem removeFirstMatch_eq_some (name : String) (l : List Booking)
    (b : Booking) (rest : List Booking)
    (h : removeFirstMatch name l = some (b, rest)) :
    ∃ pre post, l = pre ++ b :: post ∧ rest = pre ++ post ∧
      (∀ x ∈ pre, bookingMatches x name = false) ∧
      bookingMatches b name = true := by
  induction l generalizing b rest with
  | nil => simp [removeFirstMatch] at h
  | cons x xs ih =>
    by_cases hx : bookingMatches x name = true
    · refine ⟨[], xs, ?_, ?_, by simp, ?_⟩ <;>
        simp_all [removeFirstMatch]
    · have hx' : bookingMatches x name = false := by
        cases hxx : bookingMatches x name
        · rfl
        · exact absurd hxx hx
      rw [removeFirstMatch] at h
      simp only [hx', Bool.false_eq_true, if_false] at h
      cases hrm : removeFirstMatch name xs with
      | none => rw [hrm] at h; simp at h
      | some pr =>
        obtain ⟨f, r⟩ := pr
        rw [hrm] at h
        simp only [Option.some.injEq, Prod.mk.injEq] at h
        obtain ⟨hf, hr⟩ := h
        subst hr
        obtain ⟨pre, post, h1, h2, h3, h4⟩ := ih f r hrm
        refine ⟨x :: pre, post, by simp [h1, hf], by simp [h2], ?_, hf ▸ h4⟩
        intro y hy
        rcases List.mem_cons.mp hy with hy | hy
        · exact hy ▸ hx'
        · exact h3 y hy

/-! ### Shape lemmas for the operations -/

theorem get_bus_mem (s : BusBookingSystem) (i : Int) (bus : Bus)
    (h : s.get_bus i = some bus) : bus ∈ s.buses ∧ bus.bus_id = i := by
  unfold BusBookingSystem.get_bus at h
  refine ⟨List.mem_of_find?_eq_some h, ?_⟩
  have hp := List.find?_some h
  simpa using hp

theorem create_booking_not_found_shape (s : BusBookingSystem) (name : String)
    (bus_id seats : Int) (t i : String)
    (hbus : s.get_bus bus_id = none) :
    s.create_booking name bus_id seats t i = (Except.error ApiError.busNotFound, s) := by
  unfold BusBookingSystem.create_booking
  rw [hbus]

theorem create_booking_success_shape (s : BusBookingSystem) (name : String)
    (bus_id seats : Int) (t i : String) (bus : Bus)
    (hbus : s.get_bus bus_id = some bus)
    (hr : seats ≤ bus.available_seats) :
    s.create_booking name bus_id seats t i =
      (Except.ok (Booking.make name
          { bus with available_seats := bus.available_seats - seats } seats t i),
       { s with
         buses := setBus s.buses bus_id
           { bus with available_seats := bus.available_seats - seats },
         bookings := s.bookings ++ [Booking.make name
           { bus with available_seats := bus.available_seats - seats } seats t i] }) := by
  unfold BusBookingSystem.create_booking
  rw [hbus]
  simp [Bus.reserve_seats, hr]

theorem create_booking_insufficient_shape (s : BusBookingSystem) (name : String)
    (bus_id seats : Int) (t i : String) (bus : Bus)
    (hbus : s.get_bus bus_id = some bus)
    (hr : bus.available_seats < seats) :
    s.create_booking name bus_id seats t i = (Except.error ApiError.notEnoughSeats, s) := by
  unfold BusBookingSystem.create_booking
  rw [hbus]
  simp [Bus.reserve_seats, not_le.mpr hr]

theorem cancel_booking_none_shape (s : BusBookingSystem) (name : String)
    (h : removeFirstMatch name s.bookings = none) :
    s.cancel_booking name = (false, s) := by
  unfold BusBookingSystem.cancel_booking
  rw [h]

theorem cancel_booking_some_shape (s : BusBookingSystem) (name : String)
    (b : Booking) (rest : List Booking)
    (h : removeFirstMatch name s.bookings = some (b, rest)) :
    s.cancel_booking name =
      (true,
        { s with
          buses := s.buses.map (fun bus =>
            if bus.bus_id == b.bus_id then bus.release_seats b.seats else bus),
          bookings := rest }) := by
  unfold BusBookingSystem.cancel_booking
  rw [h]

/-! ### Catalog-key preservation -/

theorem map_bus_id_update (l : List Bus) (i : Int) (f : Bus → Bus)
    (hf : ∀ b : Bus, b.bus_id = i → (f b).bus_id = b.bus_id) :
    ((l.map (fun b => if b.bus_id == i then f b else b)).map Bus.bus_id) =
      l.map Bus.bus_id := by
  rw [List.map_map]
  apply List.map_congr_left
  intro b _
  by_cases h : b.bus_id = i
  · simp [Function.comp, h, hf b h]
  · simp [Function.comp, beq_iff_eq, h]

theorem inj_on_buses (l : List Bus) (hnd : (l.map Bus.bus_id).Nodup)
    (b1 : Bus) (h1 : b1 ∈ l) (b2 : Bus) (h2 : b2 ∈ l)
    (hid : b1.bus_id = b2.bus_id) : b1 = b2 :=
  List.inj_on_of_nodup_map hnd h1 h2 hid

theorem get_bus_map (l : List Bus) (g : Bus → Bus)
    (hg : ∀ b ∈ l, (g b).bus_id = b.bus_id) (i : Int) :
    (l.map g).find? (fun b => b.bus_id == i) =
      (l.find? (fun b => b.bus_id == i)).map g := by
  induction l with
  | nil => rfl
  | cons b bs ih =>
    have hb := hg b (List.mem_cons_self b bs)
    by_cases h : b.bus_id = i
    · simp [List.find?, hb, h]
    · have h1 : ((g b).bus_id == i) = false := by simp [hb, h]
      have h2 : (b.bus_id == i) = false := by simp [h]
      simp only [List.map_cons, List.find?, h1, h2]
      exact ih (fun x hx => hg x (List.mem_cons_of_mem b hx))

/-! ### Preservation of the inductive invariant -/

theorem SysInv_create (s : BusBookingSystem) (name : String) (bus_id seats : Int)
    (t i : String) (hinv : SysInv s) (hseats : 0 < seats) :
    SysInv (s.create_booking name bus_id seats t i).2 := by
  obtain ⟨hnd, heq, hpos, hbk⟩ := hinv
  cases hbus : s.get_bus bus_id with
  | none =>
    rw [create_booking_not_found_shape s name bus_id seats t i hbus]
    exact ⟨hnd, heq, hpos, hbk⟩
  | some bus =>
    obtain ⟨hmem, hid⟩ := get_bus_mem s bus_id bus hbus
    by_cases hr : seats ≤ bus.available_seats
    · rw [create_booking_success_shape s name bus_id seats t i bus hbus hr]
      refine ⟨?_, ?_, ?_, ?_⟩
      · dsimp only
        unfold setBus
        rw [map_bus_id_update s.buses bus_id
          (fun _ => { bus with available_seats := bus.available_seats - seats })
          (fun b hb => by dsimp only; rw [hb]; exact hid)]
        exact hnd
      · intro b' hb'
        dsimp only at hb' ⊢
        unfold setBus at hb'
        obtain ⟨b, hbmem, hbeq⟩ := List.mem_map.mp hb'
        rw [sumSeatsFor_append, sumSeatsFor_cons, sumSeatsFor_nil]
        by_cases hbid : b.bus_id = bus_id
        · have hbb : b = bus := inj_on_buses s.buses hnd b hbmem bus hmem (hbid.trans hid.symm)
          subst hbb
          rw [if_pos (by simp [hbid])] at hbeq
          subst hbeq
          have hsum := heq b hbmem
          have hbeq2 : ((Booking.make name
              { b with available_seats := b.available_seats - seats } seats t i).bus_id
              == ({ b with available_seats := b.available_seats - seats} : Bus).bus_id)
              = true := by
            simp [Booking.make]
          rw [if_pos hbeq2]
          dsimp only [Booking.make]
          omega
        · rw [if_neg (by simp [hbid])] at hbeq
          subst hbeq
          have hsum := heq b hbmem
          have hne : ((Booking.make name
              { bus with available_seats := bus.available_seats - seats } seats t i).bus_id
              == b.bus_id) = false := by
            dsimp only [Booking.make]
            rw [beq_eq_false_iff_ne, hid]
            exact fun h => hbid h.symm
          rw [if_neg (by simp [hne])]
          omega
      · intro b' hb'
        dsimp only at hb' ⊢
        unfold setBus at hb'
        obtain ⟨b, hbmem, hbeq⟩ := List.mem_map.mp hb'
        by_cases hbid : b.bus_id = bus_id
        · rw [if_pos (by simp [hbid])] at hbeq
          have hbb : b = bus := inj_on_buses s.buses hnd b hbmem bus hmem (hbid.trans hid.symm)
          subst hbb
          subst hbeq
          dsimp only
          omega
        · rw [if_neg (by simp [hbid])] at hbeq
          subst hbeq
          exact hpos b hbmem
      · intro x hx
        dsimp only at hx
        rcases List.mem_append.mp hx with hx | hx
        · exact hbk x hx
        · rw [List.mem_singleton.mp hx]
          exact hseats
    · rw [create_booking_insufficient_shape s name bus_id seats t i bus hbus (not_le.mp hr)]
      exact ⟨hnd, heq, hpos, hbk⟩

theorem SysInv_cancel (s : BusBookingSystem) (name : String) (hinv : SysInv s) :
    SysInv (s.cancel_booking name).2 := by
  obtain ⟨hnd, heq, hpos, hbk⟩ := hinv
  cases hrm : removeFirstMatch name s.bookings with
  | none =>
    rw [cancel_booking_none_shape s name hrm]
    exact ⟨hnd, heq, hpos, hbk⟩
  | some pr =>
    obtain ⟨b, rest⟩ := pr
    rw [cancel_booking_some_shape s name b rest hrm]
    obtain ⟨pre, post, hl, hrest, hpre, hbm⟩ :=
      removeFirstMatch_eq_some name s.bookings b rest hrm
    have hbmem : b ∈ s.bookings := by rw [hl]; simp
    have hbseats : 0 < b.seats := hbk b hbmem
    have hrest_sub : ∀ x ∈ rest, x ∈ s.bookings := by
      intro x hx
      rw [hrest] at hx
      rw [hl]
      rcases List.mem_append.mp hx with h | h
      · exact List.mem_append.mpr (Or.inl h)
      · exact List.mem_append.mpr (Or.inr (List.mem_cons_of_mem b h))
    have hrest_pos : ∀ x ∈ rest, 0 < x.seats := fun x hx => hbk x (hrest_sub x hx)
    have hsum : ∀ j : Int, sumSeatsFor s.bookings j =
        sumSeatsFor rest j + (if b.bus_id == j then b.seats else 0) := by
      intro j
      rw [hl, hrest, sumSeatsFor_append, sumSeatsFor_append, sumSeatsFor_cons]
      ring
    refine ⟨?_, ?_, ?_, fun x hx => hbk x (hrest_sub x hx)⟩
    · dsimp only
      rw [map_bus_id_update s.buses b.bus_id
        (fun bus => bus.release_seats b.seats) (fun bus _ => rfl)]
      exact hnd
    · intro b' hb'
      dsimp only at hb' ⊢
      obtain ⟨bus, hbmem', hbeq⟩ := List.mem_map.mp hb'
      by_cases hbid : bus.bus_id = b.bus_id
      · rw [if_pos (by simp [hbid])] at hbeq
        subst hbeq
        have h1 := heq bus hbmem'
        have h2 := hsum bus.bus_id
        rw [if_pos (by simp [hbid])] at h2
        have h3 := sumSeatsFor_nonneg rest bus.bus_id hrest_pos
        dsimp only [Bus.release_seats]
        omega
      · rw [if_neg (by simp [hbid])] at hbeq
        subst hbeq
        have h1 := heq bus hbmem'
        have h2 := hsum bus.bus_id
        rw [if_neg (fun hc => hbid (beq_iff_eq.mp hc).symm)] at h2
        omega
    · intro b' hb'
      dsimp only at hb' ⊢
      obtain ⟨bus, hbmem', hbeq⟩ := List.mem_map.mp hb'
      by_cases hbid : bus.bus_id = b.bus_id
      · rw [if_pos (by simp [hbid])] at hbeq
        subst hbeq
        have h1 := heq bus hbmem'
        have h2 := sumSeatsFor_nonneg s.bookings bus.bus_id hbk
        have h3 := hpos bus hbmem'
        dsimp only [Bus.release_seats]
        omega
      · rw [if_neg (by simp [hbid])] at hbeq
        subst hbeq
        exact hpos bus hbmem'

theorem reachable_SysInv (s : BusBookingSystem) (h : Reachable s) : SysInv s := by
  induction h with
  | init => decide
  | book s name bus_id seats t i hs ih =>
    unfold book_ticket
    split
    · next hvalid => exact SysInv_create s name bus_id seats t i ih hvalid.2.2.2.1
    · exact ih
  | cancel s name hs ih =>
    unfold cancel_booking_api
    split
    · exact SysInv_cancel s name ih
    · exact ih

/-! ### Claim C1 -/

/-- Claim C1: for every route, in every state reachable from the seeded
catalog by the public operations (`book_ticket`, `cancel_booking_api`, and
the stateless listing endpoints), `0 ≤ available_seats ≤ total_seats`. -/
theorem reachable_available_seats_in_bounds (s : BusBookingSystem) (b : Bus)
    (hs : Reachable s) (hb : b ∈ s.buses) :
    0 ≤ b.available_seats ∧ b.available_seats ≤ b.total_seats := by
  obtain ⟨hnd, heq, hpos, hbk⟩ := reachable_SysInv s hs
  refine ⟨hpos b hb, ?_⟩
  have h1 := heq b hb
  have h2 := sumSeatsFor_nonneg s.bookings b.bus_id hbk
  omega

/-- Witness for C1 at the state reached by one booking through the public
endpoint. -/
theorem reachable_available_seats_in_bounds_witness :
    0 ≤ exBookedBus1.available_seats ∧
      exBookedBus1.available_seats ≤ exBookedBus1.total_seats :=
  reachable_available_seats_in_bounds exBooked exBookedBus1
    (Reachable.book initSystem "Alice" 1 5 "20250101090000" "2025-01-01T09:00:00"
      Reachable.init)
    (by decide)

/-! ### Claim C2 -/

/-- Claim C2: for every route, in every state reachable by the public
operations, `available_seats` equals `total_seats` minus the sum of the seats
of all bookings in the ledger that reference that route (an active booking is
exactly a ledger entry: cancellation removes the record). -/
theorem reachable_ledger_accounting (s : BusBookingSystem) (b : Bus)
    (hs : Reachable s) (hb : b ∈ s.buses) :
    b.available_seats = b.total_seats - sumSeatsFor s.bookings b.bus_id :=
  (reachable_SysInv s hs).2.1 b hb

/-- Witness for C2 at the state reached by one booking through the public
endpoint. -/
theorem reachable_ledger_accounting_witness :
    exBookedBus1.available_seats =
      exBookedBus1.total_seats - sumSeatsFor exBooked.bookings exBookedBus1.bus_id :=
  reachable_ledger_accounting exBooked exBookedBus1
    (Reachable.book initSystem "Alice" 1 5 "20250101090000" "2025-01-01T09:00:00"
      Reachable.init)
    (by decide)

/-! ### Claim C3 -/

/-- Claim C3: for every state, name and existing route, if the requested
seat count exceeds the route's current available seats then `create_booking`
fails with the insufficient-seats error and returns the state completely
unchanged: the route's `available_seats` is untouched and no entry is
appended to the ledger. -/
theorem create_booking_insufficient_seats (s : BusBookingSystem) (name : String)
    (bus_id seats : Int) (t i : String) (bus : Bus)
    (hbus : s.get_bus bus_id = some bus)
    (hlt : bus.available_seats < seats) :
    s.create_booking name bus_id seats t i = (Except.error ApiError.notEnoughSeats, s) :=
  create_booking_insufficient_shape s name bus_id seats t i bus hbus hlt

/-- Witness for C3: requesting 31 seats on the freshly seeded route 1 (which
has 30) fails and leaves the state intact. -/
theorem create_booking_insufficient_seats_witness :
    initSystem.create_booking "Zed" 1 31 "20250101000000" "2025-01-01T00:00:00" =
      (Except.error ApiError.notEnoughSeats, initSystem) :=
  create_booking_insufficient_seats initSystem "Zed" 1 31
    "20250101000000" "2025-01-01T00:00:00" seededBus1 (by decide) (by decide)

/-! ### Claim C4 -/

/-- Claim C4 counterexample: the catalog does not reject a non-positive
count.  `reserve_seats` on the seeded route 1 with count `-5` reports
success and changes `available_seats` from 30 to 35 — the claim says it
should report failure and leave the seats unchanged. -/
theorem reserve_seats_nonpositive_not_rejected :
    (seededBus1.reserve_seats (-5)).1 = true ∧
      (seededBus1.reserve_seats (-5)).2.available_seats = 35 := by
  decide

/-- Claim C4 (amended): `reserve_seats` does not reject `count ≤ 0`.
Whenever `available_seats` is non-negative, a non-positive count is accepted
(the guard `count ≤ available_seats` holds) and `available_seats` becomes
`available_seats - count`, growing for a negative count.  Non-positive counts
are excluded only by the boundary validation (`BookingRequest` requires
`seats > 0`). -/
theorem reserve_seats_nonpositive_succeeds (b : Bus) (count : Int)
    (hc : count ≤ 0) (hb : 0 ≤ b.available_seats) :
    (b.reserve_seats count).1 = true ∧
      (b.reserve_seats count).2.available_seats = b.available_seats - count := by
  have h : count ≤ b.available_seats := le_trans hc hb
  simp [Bus.reserve_seats, h]

/-- Witness for the amended C4 at the seeded route 2 with count `-7`. -/
theorem reserve_seats_nonpositive_succeeds_witness :
    (seededBus2.reserve_seats (-7)).1 = true ∧
      (seededBus2.reserve_seats (-7)).2.available_seats =
        seededBus2.available_seats - (-7) :=
  reserve_seats_nonpositive_succeeds seededBus2 (-7) (by decide) (by decide)

/-! ### Claim C5 -/

/-- Claim C5 counterexample: the ledger method itself does not validate.
Called directly with an empty name and a zero seat count, `create_booking`
happily creates a booking (the outcome is `ok` and the ledger grows) instead
of rejecting the request with an invalid-request error — indeed the method
has no invalid-request outcome at all. -/
theorem create_booking_no_internal_validation :
    (initSystem.create_booking "" 1 0 "20250101000000" "2025-01-01T00:00:00").1.isOk = true ∧
      (initSystem.create_booking "" 1 0 "20250101000000" "2025-01-01T00:00:00").2.bookings.length = 1 := by
  decide

/-- Claim C5 (amended): the rejection of an empty or overlong name, a
non-positive seat count or a seat count above 30 happens in the boundary
pydantic validation (`BookingRequest`), not in the ledger: the `POST
/bookings` endpoint rejects such a request with a validation error before
`create_booking` runs, leaving catalog and ledger unchanged. -/
theorem book_ticket_invalid_request_rejected (s : BusBookingSystem)
    (name : String) (bus_id seats : Int) (t i : String)
    (h : name.length = 0 ∨ 100 < name.length ∨ seats ≤ 0 ∨ 30 < seats) :
    book_ticket s name bus_id seats t i = (Except.error ApiError.validationError, s) := by
  have hnv : ¬ BookingRequest.valid name bus_id seats := by
    intro hv
    obtain ⟨h1, h2, h3, h4, h5⟩ := hv
    rcases h with h | h | h | h <;> omega
  unfold book_ticket
  rw [if_neg hnv]

/-- Witness for the amended C5: an empty name with zero seats is rejected by
the endpoint with the state untouched. -/
theorem book_ticket_invalid_request_rejected_witness :
    book_ticket initSystem "" 1 0 "20250101000000" "2025-01-01T00:00:00" =
      (Except.error ApiError.validationError, initSystem) :=
  book_ticket_invalid_request_rejected initSystem "" 1 0
    "20250101000000" "2025-01-01T00:00:00" (by decide)

/-! ### Claim C7 -/

/-- Claim C7: `cancel_booking` matches passenger names case-insensitively
and cancels exactly the first match in ledger order: whenever the ledger
splits as `pre ++ b :: post` with no match in `pre` and `b` matching, the
call succeeds and the new ledger is `pre ++ post` — every later booking,
matching or not, stays.  In particular one call removes at most one
booking. -/
theorem cancel_booking_cancels_first_match (s : BusBookingSystem) (name : String)
    (pre : List Booking) (b : Booking) (post : List Booking)
    (hdec : s.bookings = pre ++ b :: post)
    (hpre : ∀ x ∈ pre, bookingMatches x name = false)
    (hb : bookingMatches b name = true) :
    (s.cancel_booking name).1 = true ∧
      (s.cancel_booking name).2.bookings = pre ++ post := by
  have hrm : removeFirstMatch name s.bookings = some (b, pre ++ post) := by
    rw [hdec]
    exact removeFirstMatch_append_match name pre b post hpre hb
  rw [cancel_booking_some_shape s name b (pre ++ post) hrm]
  exact ⟨rfl, rfl⟩

/-- Witness for C7: with two Carol bookings in the ledger, cancelling
`"CAROL"` (case-insensitive) removes only the first and keeps the second. -/
theorem cancel_booking_cancels_first_match_witness :
    (exCarolState.cancel_booking "CAROL").1 = true ∧
      (exCarolState.cancel_booking "CAROL").2.bookings = [bkCarol2] :=
  cancel_booking_cancels_first_match exCarolState "CAROL" [] bkCarol1 [bkCarol2]
    (by decide) (by decide) (by decide)

/-! ### Claim C8 -/

/-- Claim C8: if no ledger booking matches the name case-insensitively,
`cancel_booking` reports failure (which the endpoint maps to the 404
`Booking not found`) and returns the state entirely unchanged — ledger and
every route's `available_seats` included. -/
theorem cancel_booking_not_found_unchanged (s : BusBookingSystem) (name : String)
    (h : ∀ x ∈ s.bookings, bookingMatches x name = false) :
    s.cancel_booking name = (false, s) :=
  cancel_booking_none_shape s name (removeFirstMatch_of_no_match name s.bookings h)

/-- Witness for C8: cancelling `"Bob"` in a state holding only Alice's
booking fails and changes nothing. -/
theorem cancel_booking_not_found_unchanged_witness :
    exAlice1.cancel_booking "Bob" = (false, exAlice1) :=
  cancel_booking_not_found_unchanged exAlice1 "Bob" (by decide)

/-! ### Claim C6 -/

/-- Claim C6 counterexample: the round-trip fails when another booking
already matches the name case-insensitively.  With Alice's route-1 booking
in the ledger, `create_booking "alice" 2 3` succeeds (route 2 then has 27 of
30 seats, and had 30 before the booking), but the immediately following
`cancel_booking "alice"` cancels the older Alice booking, leaving route 2 at
27 instead of restoring its pre-booking value 30. -/
theorem create_cancel_roundtrip_fails_with_duplicate_names :
    (exAlice1.create_booking "alice" 2 3 "20250101091500" "2025-01-01T09:15:00").1.isOk = true ∧
      (exAlice1.get_bus 2).map Bus.available_seats = some 30 ∧
      (exAlice2.cancel_booking "alice").1 = true ∧
      ((exAlice2.cancel_booking "alice").2.get_bus 2).map Bus.available_seats = some 27 := by
  decide

/-- Claim C6 (amended): the round-trip holds when the new booking is the
first case-insensitive match for the name, i.e. no booking already in the
ledger matches it.  If `create_booking name bus_id seats` succeeds from a
state with distinct catalog keys, the booked route within capacity, and no
matching ledger entry, then an immediately following `cancel_booking name`
succeeds and restores that route's `available_seats` to its pre-booking
value. -/
theorem create_cancel_roundtrip_first_match (s : BusBookingSystem) (name : String)
    (bus_id seats : Int) (t i : String) (bus : Bus) (bk : Booking)
    (s2 : BusBookingSystem)
    (hnd : (s.buses.map Bus.bus_id).Nodup)
    (hbus : s.get_bus bus_id = some bus)
    (hle : bus.available_seats ≤ bus.total_seats)
    (hnm : ∀ x ∈ s.bookings, bookingMatches x name = false)
    (hcr : s.create_booking name bus_id seats t i = (Except.ok bk, s2)) :
    (s2.cancel_booking name).1 = true ∧
      ((s2.cancel_booking name).2.get_bus bus_id).map Bus.available_seats =
        some bus.available_seats := by
  obtain ⟨hmem, hid⟩ := get_bus_mem s bus_id bus hbus
  by_cases hr : seats ≤ bus.available_seats
  · rw [create_booking_success_shape s name bus_id seats t i bus hbus hr] at hcr
    have hbkeq : Booking.make name
        { bus with available_seats := bus.available_seats - seats } seats t i = bk := by
      have h1 := congrArg Prod.fst hcr
      simpa using h1
    have hs2 : ({ s with
        buses := setBus s.buses bus_id
          { bus with available_seats := bus.available_seats - seats },
        bookings := s.bookings ++ [Booking.make name
          { bus with available_seats := bus.available_seats - seats } seats t i] } :
        BusBookingSystem) = s2 := congrArg Prod.snd hcr
    subst hbkeq
    subst hs2
    have hmatch : bookingMatches (Booking.make name
        { bus with available_seats := bus.available_seats - seats } seats t i) name
        = true := by
      simp [bookingMatches, Booking.make]
    have hrm : removeFirstMatch name (s.bookings ++ [Booking.make name
        { bus with available_seats := bus.available_seats - seats } seats t i]) =
        some (Booking.make name
          { bus with available_seats := bus.available_seats - seats } seats t i,
          s.bookings ++ []) :=
      removeFirstMatch_append_match name s.bookings _ [] hnm hmatch
    rw [cancel_booking_some_shape _ name _ _ hrm]
    refine ⟨rfl, ?_⟩
    unfold BusBookingSystem.get_bus
    dsimp only [Booking.make]
    unfold setBus
    rw [List.map_map]
    have hpres : ∀ b0 ∈ s.buses,
        (((fun bus0 => if bus0.bus_id == bus.bus_id
              then bus0.release_seats seats else bus0) ∘
          (fun b1 => if b1.bus_id == bus_id
              then { bus with available_seats := bus.available_seats - seats }
              else b1)) b0) = b0 := by
      intro b0 hb0
      simp only [Function.comp]
      by_cases h0 : b0.bus_id = bus_id
      · have hbb : b0 = bus := inj_on_buses s.buses hnd b0 hb0 bus hmem (h0.trans hid.symm)
        subst hbb
        have hc1 : (b0.bus_id == bus_id) = true := by simp [h0]
        rw [if_pos hc1]
        have hc2 : (({ b0 with available_seats := b0.available_seats - seats } : Bus).bus_id
            == b0.bus_id) = true := by simp
        rw [if_pos hc2]
        dsimp only [Bus.release_seats]
        cases b0
        simp only [Bus.mk.injEq, true_and, and_true]
        dsimp only at hle hr ⊢
        omega
      · have hnc1 : ¬((b0.bus_id == bus_id) = true) := by
          rw [beq_eq_false_iff_ne.mpr h0]
          exact Bool.false_ne_true
        rw [if_neg hnc1]
        have hnc2 : ¬((b0.bus_id == bus.bus_id) = true) :=
          fun hc => h0 ((beq_iff_eq.mp hc).trans hid)
        rw [if_neg hnc2]
    rw [List.map_congr_left hpres]
    rw [show List.map (fun b0 : Bus => b0) s.buses = s.buses from List.map_id s.buses]
    have hfind : s.buses.find? (fun b1 => b1.bus_id == bus_id) = some bus := hbus
    rw [hfind]
    rfl
  · rw [create_booking_insufficient_shape s name bus_id seats t i bus hbus
      (not_le.mp hr)] at hcr
    exact absurd (congrArg Prod.fst hcr) (by simp)

/-- Witness for the amended C6: booking Alice on route 1 and cancelling her
right away brings route 1 back to its seeded 30 seats. -/
theorem create_cancel_roundtrip_first_match_witness :
    (exAlice1.cancel_booking "Alice").1 = true ∧
      ((exAlice1.cancel_booking "Alice").2.get_bus 1).map Bus.available_seats =
        some seededBus1.available_seats :=
  create_cancel_roundtrip_first_match initSystem "Alice" 1 5
    "20250101090000" "2025-01-01T09:00:00" seededBus1 bkAlice exAlice1
    (by decide) (by decide) (by decide) (by decide) (by decide)

/-! ### Claim C9 -/

theorem string_data_append (a b : String) : (a ++ b).data = a.data ++ b.data := by
  cases a
  cases b
  rfl

theorem string_append_left_cancel (a s1 s2 : String)
    (h : a ++ s1 = a ++ s2) : s1 = s2 := by
  have hd := congrArg String.data h
  rw [string_data_append, string_data_append] at hd
  have hdc := List.append_cancel_left hd
  cases s1
  cases s2
  exact congrArg String.mk hdc

theorem create_booking_ok_id (s : BusBookingSystem) (name : String)
    (bus_id seats : Int) (t i : String) (bk : Booking) (s2 : BusBookingSystem)
    (h : s.create_booking name bus_id seats t i = (Except.ok bk, s2)) :
    bk.booking_id = "BK" ++ t := by
  cases hbus : s.get_bus bus_id with
  | none =>
    rw [create_booking_not_found_shape s name bus_id seats t i hbus] at h
    exact absurd (congrArg Prod.fst h) (by simp)
  | some bus =>
    by_cases hr : seats ≤ bus.available_seats
    · rw [create_booking_success_shape s name bus_id seats t i bus hbus hr] at h
      have h1 := congrArg Prod.fst h
      have h2 : Booking.make name
          { bus with available_seats := bus.available_seats - seats } seats t i = bk := by
        simpa using h1
      rw [← h2]
      rfl
    · rw [create_booking_insufficient_shape s name bus_id seats t i bus hbus
        (not_le.mp hr)] at h
      exact absurd (congrArg Prod.fst h) (by simp)

/-- Claim C9 counterexample: booking ids are not unique across bookings
created within the same clock second.  After two bookings made through the
public endpoint with the same `strftime` second `20250101120000` — a
reachable state — both ledger entries carry the identical id
`BK20250101120000`. -/
theorem booking_id_same_second_collision :
    Reachable exSame2 ∧
      exSame2.bookings.map Booking.booking_id =
        ["BK20250101120000", "BK20250101120000"] ∧
      ¬ (exSame2.bookings.map Booking.booking_id).Nodup := by
  refine ⟨?_, by decide, by decide⟩
  exact Reachable.book exSame1 "Bob" 2 3 "20250101120000" "2025-01-01T12:00:00"
    (Reachable.book initSystem "Alice" 1 5 "20250101120000" "2025-01-01T12:00:00"
      Reachable.init)

/-- Claim C9 (amended): a booking id is `"BK"` followed by the creation
timestamp at second granularity and nothing else, so the ids of two
successfully created bookings are equal exactly when their creation-second
strings are equal: ids are unique across distinct seconds and collide within
one second. -/
theorem booking_id_determined_by_second
    (sa sb : BusBookingSystem) (namea nameb : String)
    (busIda busIdb seatsa seatsb : Int) (ta tb ia ib : String)
    (bka bkb : Booking) (sa2 sb2 : BusBookingSystem)
    (ha : sa.create_booking namea busIda seatsa ta ia = (Except.ok bka, sa2))
    (hb : sb.create_booking nameb busIdb seatsb tb ib = (Except.ok bkb, sb2)) :
    bka.booking_id = bkb.booking_id ↔ ta = tb := by
  rw [create_booking_ok_id sa namea busIda seatsa ta ia bka sa2 ha]
  rw [create_booking_ok_id sb nameb busIdb seatsb tb ib bkb sb2 hb]
  constructor
  · exact string_append_left_cancel "BK" ta tb
  · intro h
    rw [h]

/-- Witness for the amended C9: Dave's and Eve's bookings are created one
second apart, and their ids differ accordingly. -/
theorem booking_id_determined_by_second_witness :
    bkDave.booking_id = bkEve.booking_id ↔ "20250102080000" = "20250102080001" :=
  booking_id_determined_by_second initSystem initSystem "Dave" "Eve" 1 2 4 2
    "20250102080000" "20250102080001" "2025-01-02T08:00:00" "2025-01-02T08:00:01"
    bkDave bkEve sDave sEve (by decide) (by decide)

/-! ### Claim C10 -/

/-- Claim C10: frame of a successful cancellation.  When the ledger splits
as `pre ++ b :: post` around the first case-insensitive match `b`, the call
removes exactly that one booking — the remaining records and their relative
order (`pre ++ post`) are untouched — and the catalog is rewritten so that
only buses carrying the removed booking's route id change, and only in their
`available_seats` field (clamped release); every other route is exactly
unchanged. -/
theorem cancel_booking_frame (s : BusBookingSystem) (name : String)
    (pre : List Booking) (b : Booking) (post : List Booking)
    (hdec : s.bookings = pre ++ b :: post)
    (hpre : ∀ x ∈ pre, bookingMatches x name = false)
    (hb : bookingMatches b name = true) :
    (s.cancel_booking name).1 = true ∧
      (s.cancel_booking name).2.bookings = pre ++ post ∧
      (s.cancel_booking name).2.buses = s.buses.map (fun bus =>
        if bus.bus_id == b.bus_id then
          { bus with
            available_seats := min (bus.available_seats + b.seats) bus.total_seats }
        else bus) := by
  have hrm : removeFirstMatch name s.bookings = some (b, pre ++ post) := by
    rw [hdec]
    exact removeFirstMatch_append_match name pre b post hpre hb
  rw [cancel_booking_some_shape s name b (pre ++ post) hrm]
  exact ⟨rfl, rfl, rfl⟩

/-- Witness for C10: cancelling `"carol"` in the two-Carol state removes
only the first Carol booking and rewrites only route 1 (the booked route),
adding its 2 seats back. -/
theorem cancel_booking_frame_witness :
    (exCarolState.cancel_booking "carol").1 = true ∧
      (exCarolState.cancel_booking "carol").2.bookings = [bkCarol2] ∧
      (exCarolState.cancel_booking "carol").2.buses = exCarolState.buses.map (fun bus =>
        if bus.bus_id == bkCarol1.bus_id then
          { bus with
            available_seats := min (bus.available_seats + bkCarol1.seats) bus.total_seats }
        else bus) :=
  cancel_booking_frame exCarolState "carol" [] bkCarol1 [bkCarol2]
    (by decide) (by decide) (by decide)

end BusApi
